import Mathlib

/-!
Verification of the trajectory subsystem of the `newportxps` package
(`newportxps/newportxps.py`), shallowly embedded in Lean 4.

Floating-point values are modelled as rationals (`ℚ`); Python `int()`
truncation is modelled explicitly.  Device I/O (`self._xps.*` calls) is
modelled by a `Device` record supplying the error code and payload each
call would return; the mutable `NewportXPS` object is modelled by an
explicit `XPSState` threaded through each operation, and Python
exceptions by an `Except PyErr` result (or an `Option PyErr` channel
next to the final state, so that partially mutated state at raise time
stays observable).
-/

/-- Python `int()` applied to a nonnegative-or-negative rational:
truncation toward zero. -/
def pyInt (q : ℚ) : ℤ := if q < 0 then -(⌊-q⌋) else ⌊q⌋

/-- Python `int(a / b)` for integers `a`, `b`: float division then
truncation toward zero. -/
def pyIntDiv (a b : ℤ) : ℤ := Int.tdiv a b

/-- `np.diff`: successive differences of a list. -/
def npDiff : List ℚ → List ℚ
  | [] => []
  | [_] => []
  | a :: b :: t => (b - a) :: npDiff (b :: t)

/-- `0.5*(mid[1:] + mid[:-1])`: midpoints of adjacent pairs. -/
def adjMidpoints : List ℚ → List ℚ
  | [] => []
  | [_] => []
  | a :: b :: t => ((a + b) / 2) :: adjMidpoints (b :: t)

/-- `np.gradient` of a 1-D array with unit spacing: one-sided differences
at the ends, centered differences inside. -/
def npGradient (a : List ℚ) : List ℚ :=
  (List.range a.length).map fun i =>
    if i = 0 then a.getD 1 0 - a.getD 0 0
    else if i = a.length - 1 then a.getD i 0 - a.getD (i - 1) 0
    else (a.getD (i + 1) 0 - a.getD (i - 1) 0) / 2

/-- Python `max(abs(arr))` (the arrays fed to it are nonempty, so the
`0` base of the fold is never the maximum). -/
def maxAbs (l : List ℚ) : ℚ := (l.map (fun x => |x|)).foldr max 0

/-- Session states (module-level string constants `IDLE`, `ARMING`, ... in
the source). -/
inductive TrajState where
  | IDLE | ARMING | ARMED | RUNNING | COMPLETE | WRITING | READING
deriving DecidableEq, Repr

/-- Python exceptions the embedded methods can raise. -/
inductive PyErr where
  | xpsException (msg : String)
  | valueError (msg : String)
  | typeError
  | zeroDivisionError
deriving DecidableEq, Repr

/-- An entry of `self.trajectories`.  `ttype` is `'line'` or `'array'`;
`startList` is the `start` list of a line trajectory, `startBackoff` the
per-axis `start` dict of an array trajectory.  For array trajectories the
per-axis `pos`/`velo`/`accel` series (which the source serializes into
the `pvt_buffer` text, one `(position, velocity)` pair per axis and
segment) are kept as rational arrays. -/
structure Traj where
  axes : List String
  ttype : String
  pixeltime : ℚ
  npulses : ℤ
  nsegments : ℤ
  uploaded : Bool
  startList : List ℚ := []
  stopList : List ℚ := []
  startBackoff : List (String × Option ℚ) := []
  posArrays : List (String × List ℚ) := []
  veloArrays : List (String × List ℚ) := []
  accelArrays : List (String × List ℚ) := []

/-- The responses the device (`self._xps`) would give to each call during
one operation.  Error codes follow the source convention: `0` is success.
`gatherNumResponses` is the finite sequence of
`GatheringCurrentNumberGet` results `(error, npulses)` the device
produces within the 5-second polling window (exhaustion of the list
models expiry of the wall-clock timeout); `readLines start n` is the
`GatheringDataMultipleLinesGet` result for a given offset and count. -/
structure Device where
  moveStageErr : ℤ := 0
  gatheringResetErr : ℤ := 0
  gatheringConfigErr : ℤ := 0
  pulseOutputErr : ℤ := 0
  verificationErr : ℤ := 0
  eventTriggerErr : ℤ := 0
  eventActionErr : ℤ := 0
  pvtExecutionErr : ℤ := 0
  gatherNumResponses : List (ℤ × ℤ) := []
  readLines : ℤ → ℤ → ℤ × String := fun _ _ => (0, "")

/-- The mutable fields of a `NewportXPS` object used by the trajectory
subsystem.  `positioners` is `self.groups[self.traj_group]['positioners']`
(`self.traj_positioners`); `maxVeloOf ax` and `maxAccelOf ax` are
`self.stages[f"{traj_group}.{ax}"]['max_velo']` / `['max_accel']`. -/
structure XPSState where
  traj_group : Option String
  positioners : List String
  maxVeloOf : String → ℚ
  maxAccelOf : String → ℚ
  trajectories : List (String × Traj)
  traj_state : TrajState
  traj_file : Option String
  nsegments : ℤ
  ngathered : ℤ
  firmware_xpsd : Bool

/-- `self.trajectories[name] = traj`: Python dict assignment (replace or
add the binding). -/
def setTraj (table : List (String × Traj)) (name : String) (traj : Traj) :
    List (String × Traj) :=
  if (table.lookup name).isSome then
    table.map fun p => if p.1 = name then (name, traj) else p
  else table ++ [(name, traj)]

/-- `check_error`: raise `XPSException` when the device error code is
nonzero and `with_raise` is set (the catalog description in the message
text is not modelled). -/
def check_error (err : ℤ) (msg : String) (withRaise : Bool := true) :
    Except PyErr Unit :=
  if err ≠ 0 ∧ withRaise then .error (.xpsException msg) else .ok ()

/-! ### define_line_trajectories

The numeric core of `define_line_trajectories` (lines 744-834).  The
stage lookup, uploading, and `verbose` printing are outside the claims;
the computation below follows the source line by line.  `maxVeloStage` /
`maxAccelStage` are the stage's `max_velo` / `max_accel` entries. -/

structure LineResult where
  npulses : ℤ
  pixeltime : ℚ
  scantime : ℚ
  distance : ℚ
  velocity : ℚ
  accel : ℚ
  ramptime : ℚ
  rampdist : ℚ
  offset : ℚ
  forewardStart : List ℚ
  forewardStop : List ℚ
  backwardStart : List ℚ
  backwardStop : List ℚ
  foreStart : String → ℚ
  foreStop : String → ℚ
  foreStep : String → ℚ
  foreVelo : String → ℚ
  foreRamp : String → ℚ
  foreDist : String → ℚ
  backStart : String → ℚ
  backStop : String → ℚ
  backStep : String → ℚ
  backVelo : String → ℚ
  backRamp : String → ℚ
  backDist : String → ℚ

/-- The per-axis template dict loop: `val = 0.0; if ax == axis: val =
base[attr]` over `self.traj_positioners` — as a function of the axis
name (axes outside the positioner list never appear as keys; they are
mapped to `0` here and never used by the theorems). -/
def foreVal (axis : String) (v : ℚ) : String → ℚ :=
  fun ax => if ax = axis then v else 0

/-- `back[f"{axis}_{attr}"] = v` on a copy of the fore dict: override one
axis's entry, keep the rest. -/
def backFn (axis : String) (v : ℚ) (base : String → ℚ) : String → ℚ :=
  fun ax => if ax = axis then v else base ax

/-- The `pixeltime`/`scantime` resolution: when `pixeltime` is unset it is
derived from `scantime/(npulses-1)` (raising `ZeroDivisionError` when
`npulses == 1`); when both are unset, `pixeltime*npulses` raises
`TypeError`. -/
def pixscanOf (pixeltimeArg scantimeArg : Option ℚ) (npulses : ℤ) :
    Except PyErr ℚ :=
  match pixeltimeArg, scantimeArg with
  | none, some st0 =>
      if npulses = 1 then .error .zeroDivisionError
      else .ok (|st0| / ((npulses : ℚ) - 1))
  | none, none => .error .typeError
  | some pt, _ => .ok pt

/-- `define_line_trajectories` numeric core.  Division-by-zero paths that
would raise `ZeroDivisionError` in Python are surfaced as errors. -/
def define_line_trajectories (axis : String)
    (maxVeloStage maxAccelStage : ℚ)
    (pixeltimeArg scantimeArg : Option ℚ) (start stop step : ℚ)
    (accelArg : Option ℚ) : Except PyErr LineResult :=
  let max_velo := (3 / 4 : ℚ) * maxVeloStage
  let max_accel := (1 / 2 : ℚ) * maxAccelStage
  let accel0 := match accelArg with
    | none => max_accel
    | some a => a
  let accel := min accel0 max_accel
  let scandir : ℚ := if start > stop then -1 else 1
  let step := scandir * |step|
  if step = 0 then .error .zeroDivisionError
  else
  let npulses : ℤ := pyInt ((|stop - start| + |step| * (11 / 10)) / |step|)
  match pixscanOf pixeltimeArg scantimeArg npulses with
  | .error e => .error e
  | .ok pixeltime =>
  let scantime := pixeltime * (npulses : ℚ)
  if scantime = 0 then .error .zeroDivisionError
  else
  let distance := (|stop - start| + |step|) * 1
  let velocity := min (distance / scantime) max_velo
  if accel = 0 then .error .zeroDivisionError
  else
  let ramptime := max (1 / 50000 : ℚ) |velocity / accel|
  let rampdist := velocity * ramptime
  let offset := step / 2 + scandir * rampdist
  let fStart := foreVal axis start
  let fStop := foreVal axis stop
  let fStep := foreVal axis step
  let fVelo := foreVal axis velocity
  let fRamp := foreVal axis rampdist
  let fDist := foreVal axis distance
  -- back = fore.copy(); back[axis_start] = fore[axis_stop];
  -- back[axis_stop] = fore[axis_start]; back[axis_{velo,ramp,dist}] *= -1
  let bStart := backFn axis (fStop axis) fStart
  let bStop := backFn axis (fStart axis) fStop
  let bVelo := backFn axis (fVelo axis * (-1)) fVelo
  let bRamp := backFn axis (fRamp axis * (-1)) fRamp
  let bDist := backFn axis (fDist axis * (-1)) fDist
  .ok { npulses := npulses
        pixeltime := pixeltime
        scantime := scantime
        distance := distance
        velocity := velocity
        accel := accel
        ramptime := ramptime
        rampdist := rampdist
        offset := offset
        forewardStart := [start - offset]
        forewardStop := [stop + offset]
        backwardStart := [stop + offset]
        backwardStop := [start - offset]
        foreStart := fStart
        foreStop := fStop
        foreStep := fStep
        foreVelo := fVelo
        foreRamp := fRamp
        foreDist := fDist
        backStart := bStart
        backStop := bStop
        backStep := fStep
        backVelo := bVelo
        backRamp := bRamp
        backDist := bDist }

/-! ### define_array_trajectory

Embedding of `define_array_trajectory` (lines 836-982).  The input
`positions` dict is an ordered association list (Python dicts preserve
insertion order); `max_accels` likewise.  Uploading is modelled by the
`upload`/`uploadOk` flags (the external transfer collaborator's success).
Paths on which Python would raise `ZeroDivisionError` (zero `dtime`, or a
zero denominator in the start-backoff formula) are surfaced as
`zeroDivisionError`. -/

/-- Python `p + s` startswith test, character-wise. -/
def pyStartsWith (p s : String) : Bool := p.data.isPrefixOf s.data

/-- Python slicing `s[n:]`, character-wise. -/
def pyDropStr (s : String) (n : ℕ) : String := String.mk (s.data.drop n)

/-- Key normalization in the validation loop: `if key.startswith(tgroup):
pname = key[len(tgroup)+1:]`. -/
def stripGroupKey (tgroup key : String) : String :=
  if pyStartsWith tgroup key then pyDropStr key (tgroup.length + 1) else key

/-- The validation loop over `positions.items()`: accumulates `input_ok`
and `npts` exactly as the source does (unknown positioner or mismatched
array length clears `input_ok`; the loop keeps going). -/
def checkItems (tgroup : String) (allAxes : List String) :
    List (String × List ℚ) → Option ℕ → Bool → Option ℕ × Bool
  | [], npts, ok => (npts, ok)
  | (key, value) :: rest, npts, ok =>
      let pname := stripGroupKey tgroup key
      let ok1 := if allAxes.contains pname then ok else false
      match npts with
      | none => checkItems tgroup allAxes rest (some value.length) ok1
      | some n =>
          checkItems tgroup allAxes rest (some n)
            (if n ≠ value.length then false else ok1)

/-- `mid`: the input positions padded by linear extrapolation at both
ends (`[3*upos[0]-2*upos[1], 2*upos[0]-upos[1]] + upos + [2*upos[-1]-upos[-2],
3*upos[-1]-2*upos[-2]]`). -/
def midArray (upos : List ℚ) : List ℚ :=
  [3 * upos.getD 0 0 - 2 * upos.getD 1 0,
   2 * upos.getD 0 0 - upos.getD 1 0]
  ++ upos
  ++ [2 * upos.getD (upos.length - 1) 0 - upos.getD (upos.length - 2) 0,
      3 * upos.getD (upos.length - 1) 0 - 2 * upos.getD (upos.length - 2) 0]

/-- `pos[axes] = 0.5*(mid[1:] + mid[:-1])`: the trigger positions. -/
def trigPositions (upos : List ℚ) : List ℚ := adjMidpoints (midArray upos)

/-- `a0 = (v1-v0)/dtime` computed from the first three trigger points. -/
def a0Of (upos : List ℚ) (dtime : ℚ) : ℚ :=
  let posA := trigPositions upos
  ((posA.getD 2 0 - posA.getD 1 0) / dtime -
   (posA.getD 1 0 - posA.getD 0 0) / dtime) / dtime

/-- `start[axes] = p1 - (p1-p0)*dtime*max(v0, 0.5*maxv)/max(a0, 0.5*maxa)`. -/
def startBackoffOf (upos : List ℚ) (dtime maxv maxa : ℚ) : ℚ :=
  let posA := trigPositions upos
  let p0 := posA.getD 0 0
  let p1 := posA.getD 1 0
  let v0 := (p1 - p0) / dtime
  p1 - (p1 - p0) * dtime * max v0 ((1 / 2) * maxv) /
        max (a0Of upos dtime) ((1 / 2) * maxa)

/-- `pos[axes] = np.diff(pos[axes] - start[axes])`: per-segment
displacement. -/
def dposSeries (upos : List ℚ) (dtime maxv maxa : ℚ) : List ℚ :=
  npDiff ((trigPositions upos).map
    (fun x => x - startBackoffOf upos dtime maxv maxa))

/-- `velo[axes] = np.gradient(pos[axes])/times; velo[axes][-1] = 0.0`. -/
def veloSeries (upos : List ℚ) (dtime maxv maxa : ℚ) : List ℚ :=
  let v := (npGradient (dposSeries upos dtime maxv maxa)).map
    (fun g => g / dtime)
  v.set (v.length - 1) 0

/-- `accel[axes] = np.gradient(velo[axes])/times`. -/
def accelSeries (upos : List ℚ) (dtime maxv maxa : ℚ) : List ℚ :=
  (npGradient (veloSeries upos dtime maxv maxa)).map (fun g => g / dtime)

/-- The effective acceleration cap: the stage's `max_accel`, lowered to
`min(max_accels[axes], maxa)` when an override is supplied. -/
def effMaxAccel (st : XPSState) (maxAccels : List (String × ℚ))
    (ax : String) : ℚ :=
  match maxAccels.lookup ax with
  | some m => min m (st.maxAccelOf ax)
  | none => st.maxAccelOf ax

/-- The per-axis body of the `for axes in all_axes:` loop: compute the
start backoff, displacement, velocity and acceleration series for a
supplied axis (raising `ValueError` on a kinematic-limit violation), or
all-zero series of length `npulses+1` for an axis not in `positions`. -/
def axisCalc (maxv maxa dtime : ℚ) (npulses : ℕ)
    (uposOpt : Option (List ℚ)) :
    Except PyErr (Option ℚ × List ℚ × List ℚ × List ℚ) :=
  match uposOpt with
  | none =>
      .ok (none, List.replicate (npulses + 1) 0,
           List.replicate (npulses + 1) 0, List.replicate (npulses + 1) 0)
  | some upos =>
      if dtime = 0 then .error .zeroDivisionError
      else if max (a0Of upos dtime) ((1 / 2) * maxa) = 0 then
        .error .zeroDivisionError
      else
        let velo := veloSeries upos dtime maxv maxa
        let accel := accelSeries upos dtime maxv maxa
        if maxAbs velo > maxv then
          .error (.valueError "max velocity violated")
        else if maxAbs accel > maxa then
          .error (.valueError "max acceleration violated")
        else
          .ok (some (startBackoffOf upos dtime maxv maxa),
               dposSeries upos dtime maxv maxa, velo, accel)

/-- One pass of the `for axes in all_axes:` loop for axis `ax`: the
stage limits and the optional override are looked up, then `axisCalc`
runs on the axis's supplied positions (if any). -/
def axisStep (st : XPSState) (positions : List (String × List ℚ))
    (maxAccels : List (String × ℚ)) (dtime : ℚ) (npulses : ℕ)
    (ax : String) :
    Except PyErr (Option ℚ × List ℚ × List ℚ × List ℚ) :=
  axisCalc (st.maxVeloOf ax) (effMaxAccel st maxAccels ax) dtime npulses
    (positions.lookup ax)

/-- The `for axes in all_axes:` loop, threading the `start`/`pos`/`velo`/
`accel` dicts and propagating the first raised exception. -/
def buildAxes (st : XPSState) (positions : List (String × List ℚ))
    (maxAccels : List (String × ℚ)) (dtime : ℚ) (npulses : ℕ) :
    List String →
    Except PyErr (List (String × Option ℚ) × List (String × List ℚ) ×
      List (String × List ℚ) × List (String × List ℚ))
  | [] => .ok ([], [], [], [])
  | ax :: rest =>
    match axisStep st positions maxAccels dtime npulses ax with
    | .error e => .error e
    | .ok (s, p, v, a) =>
      match buildAxes st positions maxAccels dtime npulses rest with
      | .error e => .error e
      | .ok (ss, ps, vs, acs) =>
          .ok ((ax, s) :: ss, (ax, p) :: ps, (ax, v) :: vs, (ax, a) :: acs)

/-- `define_array_trajectory`.  Returns the final object state next to
the Python outcome: `.ok none` models the bare `return` on failed input
validation, `.ok (some traj)` the normal return, `.error e` a raised
exception. -/
def define_array_trajectory (st : XPSState)
    (positions : List (String × List ℚ)) (dtime : ℚ)
    (maxAccels : List (String × ℚ)) (name : String)
    (upload uploadOk : Bool) : XPSState × Except PyErr (Option Traj) :=
  match st.traj_group with
  | none => (st, .error (.xpsException "No trajectory group defined"))
  | some tgroup =>
    let allAxes := st.positioners
    let chk := checkItems tgroup allAxes positions none true
    if chk.2 = false then (st, .ok none)
    else
      match chk.1 with
      | none => (st, .error .typeError)
      | some npts =>
        let npulses := npts + 1
        let dtime := |dtime|
        match buildAxes st positions maxAccels dtime npulses allAxes with
        | .error e => (st, .error e)
        | .ok (starts, poss, velos, accels) =>
          let traj : Traj :=
            { axes := allAxes
              ttype := "array"
              pixeltime := dtime
              npulses := (npulses : ℤ) + 1
              nsegments := (npulses : ℤ) + 1
              uploaded := upload && uploadOk
              startBackoff := starts
              posArrays := poss
              veloArrays := velos
              accelArrays := accels }
          ({st with trajectories := setTraj st.trajectories name traj},
           .ok (some traj))

/-! ### TrajectorySession: move_to_trajectory_start, arm_trajectory,
run_trajectory (lines 985-1128)

Exceptions are carried in an `Option PyErr` channel next to the final
state, so that fields mutated before a raise stay observable. -/

/-- `move_to_trajectory_start` (lines 985-1005).  Each `move_stage` call
checks the device error code with `with_raise=True`; whether any move is
issued depends on the trajectory type and its start data. -/
def move_to_trajectory_start (st : XPSState) (dev : Device)
    (name : String) : XPSState × Option PyErr :=
  match st.traj_group with
  | none => (st, some (.xpsException "No trajectory group defined"))
  | some _ =>
    match st.trajectories.lookup name with
    | none => (st, some (.xpsException "Cannot find trajectory"))
    | some traj =>
      if traj.ttype = "line" then
        if (traj.startList.zip traj.axes) ≠ [] ∧ dev.moveStageErr ≠ 0 then
          (st, some (.xpsException "Move Stage"))
        else (st, none)
      else if traj.ttype = "array" then
        if (traj.startBackoff.any fun p => p.2.isSome) ∧ dev.moveStageErr ≠ 0
        then (st, some (.xpsException "Move Stage"))
        else (st, none)
      else (st, none)

/-- `arm_trajectory` (lines 1009-1068).  A missing trajectory group only
prints a message (it does not raise).  `GatheringReset` and
`GatheringConfigurationSet` are checked with `with_raise=True`;
`MultipleAxesPVTPulseOutputSet` and `MultipleAxesPVTVerification` with
`with_raise=False` (their errors are printed and ignored). -/
def arm_trajectory (st : XPSState) (dev : Device) (name : String)
    (moveToStart : Bool) : XPSState × Option PyErr :=
  match st.trajectories.lookup name with
  | none => (st, some (.xpsException "Cannot find trajectory"))
  | some traj =>
    if traj.uploaded = false then
      (st, some (.xpsException "trajectory has not been uploaded"))
    else
      let st := {st with traj_state := .ARMING,
                         traj_file := some (name ++ ".trj")}
      let moved := if moveToStart
        then move_to_trajectory_start st dev name else (st, none)
      match moved.2 with
      | some e => (moved.1, some e)
      | none =>
        let st := {moved.1 with nsegments := traj.nsegments}
        match check_error dev.gatheringResetErr "GatheringReset" with
        | .error e => (st, some e)
        | .ok _ =>
          match check_error dev.gatheringConfigErr "GatheringConfigSet" with
          | .error e => (st, some e)
          | .ok _ =>
            match check_error dev.pulseOutputErr "PVTPulseOutputSet" false,
                  check_error dev.verificationErr "PVTVerification" false with
            | _, _ => ({st with traj_state := .ARMED}, none)

/-! ### GatheringReader: read_gathering (lines 1143-1215) -/

/-- The count-polling loop: `while npulses < 1`, querying
`GatheringCurrentNumberGet` each pass.  The loop exits as soon as a
response reports `npulses ≥ 1` (the `ret != 0` test only adds a sleep);
running out of responses models the 5-second wall-clock timeout, on
which the source returns `(0, ' \n')`. -/
def pollGatherNum : List (ℤ × ℤ) → Option ℤ
  | [] => none
  | (_ret, np) :: rest => if np ≥ 1 then some np else pollGatherNum rest

/-- The chunk-size escalation loop: start at `nchunks = 3`,
`nx = int((npulses-2)/nchunks)`; on a failed first-chunk read add 2 to
`nchunks` and recompute `nx`; stop on a successful read or as soon as
`nchunks > 10` (the source prints a warning and `break`s — it does not
raise).  The loop runs at most 4 passes (3, 5, 7, 9), so any `fuel ≥ 4`
is exact. -/
def chunkEscalate (read : ℤ → ℤ → ℤ × String) (npulses : ℤ) :
    ℕ → ℤ → ℤ → String → ℤ × ℤ × String
  | 0, nchunks, nx, xbuff => (nchunks, nx, xbuff)
  | fuel + 1, nchunks, nx, _ =>
      let r := read 0 nx
      if r.1 = 0 then (nchunks, nx, r.2)
      else
        let nchunks' := nchunks + 2
        let nx' := pyIntDiv (npulses - 2) nchunks'
        if nchunks' > 10 then (nchunks', nx', r.2)
        else chunkEscalate read npulses fuel nchunks' nx' r.2

/-- After the escalation loop: `buff = [xbuff]`, then chunks
`1 .. nchunks-1` at offsets `i*nx`, then the remainder at offset
`nchunks*nx`, concatenated. -/
def assembleChunks (read : ℤ → ℤ → ℤ × String) (npulses nchunks nx : ℤ)
    (first : String) : String :=
  let mids := (List.range (nchunks.toNat - 1)).map
    fun j => (read (((j : ℤ) + 1) * nx) nx).2
  let tail := (read (nchunks * nx) (npulses - nchunks * nx)).2
  String.join ([first] ++ mids ++ [tail])

/-- `for x in ';\r\t': obuff = obuff.replace(x, ' ')`, character-wise. -/
def cleanChars (s : String) : String :=
  String.mk (s.data.map
    (fun c => if c = ';' ∨ c = '\r' ∨ c = '\t' then ' ' else c))

/-- `read_gathering`.  On polling timeout it returns `(0, ' \n')` right
away (before the `set_idle_when_done` epilogue, so `traj_state` stays
`READING`).  Otherwise one bulk read is attempted; a negative status
switches to chunked reads via `chunkEscalate`/`assembleChunks`.  The
final text has `;`, CR and TAB replaced by spaces.  (The second retry
loop of the source is skipped: its condition `npulses < 1` is false on
every path that reaches it.) -/
def read_gathering (st : XPSState) (dev : Device)
    (setIdleWhenDone : Bool) : XPSState × ℤ × String :=
  let st := {st with traj_state := .READING}
  match pollGatherNum dev.gatherNumResponses with
  | none => (st, 0, " \n")
  | some npulses =>
    let r := dev.readLines 0 npulses
    let buff :=
      if r.1 < 0 then
        let nx0 := pyIntDiv (npulses - 2) 3
        let esc := chunkEscalate dev.readLines npulses 5 3 nx0 ""
        assembleChunks dev.readLines npulses esc.1 esc.2.1 esc.2.2
      else r.2
    let obuff := cleanChars buff
    let st := if setIdleWhenDone then {st with traj_state := .IDLE} else st
    (st, npulses, obuff)

/-- `read_and_save` (lines 1130-1141): read the gathering buffer with
`set_idle_when_done=False`; fewer than one row means nothing to save;
otherwise write the file (`traj_state = WRITING` during the write) and
record `ngathered`. -/
def read_and_save (st : XPSState) (dev : Device) : XPSState :=
  let st := {st with ngathered := 0}
  let rg := read_gathering st dev false
  if rg.2.1 < 1 then rg.1
  else
    let st := {rg.1 with traj_state := .WRITING}
    {st with ngathered := rg.2.1}

/-- `run_trajectory` (lines 1070-1128).  A named trajectory that exists
in `self.trajectories` is auto-armed first when the state is not ARMED;
only then is the ARMED precondition enforced.  The two event
configuration calls raise on error; `MultipleAxesPVTExecution` is checked
with `with_raise=False`, and `EventExtendedRemove`/`GatheringStop` return
values are ignored.  The local `npulses` is initialized to `0` and
returned unchanged. -/
def run_trajectory (st : XPSState) (dev : Device) (name : Option String)
    (save : Bool) : XPSState × Except PyErr ℤ :=
  let armed :=
    match name with
    | some n =>
        if (st.trajectories.lookup n).isSome ∧ st.traj_state ≠ .ARMED then
          arm_trajectory st dev n true
        else (st, none)
    | none => (st, none)
  match armed.2 with
  | some e => (armed.1, .error e)
  | none =>
    let st := armed.1
    if st.traj_state ≠ .ARMED then
      (st, .error (.xpsException "Must arm trajectory before running!"))
    else
      match check_error dev.eventTriggerErr "EventConfigTrigger" with
      | .error e => (st, .error e)
      | .ok _ =>
        match check_error dev.eventActionErr "EventConfigAction" with
        | .error e => (st, .error e)
        | .ok _ =>
          let st := {st with traj_state := .RUNNING}
          let _pvt := check_error dev.pvtExecutionErr "PVT Execute" false
          let st := {st with traj_state := .COMPLETE}
          let npulses : ℤ := 0
          let st := if save then read_and_save st dev else st
          let st := {st with traj_state := .IDLE}
          (st, .ok npulses)

/-! ### Concrete scenario data used by witnesses and counterexamples -/

/-- A concrete line scan for the witnesses: axis `X`, stage limits
`max_velo = 10`, `max_accel = 100`, `pixeltime = 0.01`, `start = 0`,
`stop = 1`, `step = 0.5`, no caller acceleration. -/
def lineResultEx : LineResult where
  npulses := 3
  pixeltime := 1 / 100
  scantime := 3 / 100
  distance := 3 / 2
  velocity := 15 / 2
  accel := 50
  ramptime := 3 / 20
  rampdist := 9 / 8
  offset := 11 / 8
  forewardStart := [-(11 / 8)]
  forewardStop := [19 / 8]
  backwardStart := [19 / 8]
  backwardStop := [-(11 / 8)]
  foreStart := foreVal "X" 0
  foreStop := foreVal "X" 1
  foreStep := foreVal "X" (1 / 2)
  foreVelo := foreVal "X" (15 / 2)
  foreRamp := foreVal "X" (9 / 8)
  foreDist := foreVal "X" (3 / 2)
  backStart := backFn "X" 1 (foreVal "X" 0)
  backStop := backFn "X" 0 (foreVal "X" 1)
  backStep := foreVal "X" (1 / 2)
  backVelo := backFn "X" (-(15 / 2)) (foreVal "X" (15 / 2))
  backRamp := backFn "X" (-(9 / 8)) (foreVal "X" (9 / 8))
  backDist := backFn "X" (-(3 / 2)) (foreVal "X" (3 / 2))

/-- A session state for concrete array-planner scenarios: trajectory
group `G` with single positioner `X`, `max_velo = 4`, `max_accel = 4`. -/
def cstArr : XPSState where
  traj_group := some "G"
  positioners := ["X"]
  maxVeloOf := fun _ => 4
  maxAccelOf := fun _ => 4
  trajectories := []
  traj_state := .IDLE
  traj_file := none
  nsegments := -1
  ngathered := 0
  firmware_xpsd := false

/-- The trajectory produced from positions `[0, 2, 4]` on axis `X` with
`dtime = 1` in state `cstArr`. -/
def trajC5 : Traj where
  axes := ["X"]
  ttype := "array"
  pixeltime := 1
  npulses := 5
  nsegments := 5
  uploaded := false
  startList := []
  stopList := []
  startBackoff := [("X", some (-3))]
  posArrays := [("X", [2, 2, 2, 2, 2])]
  veloArrays := [("X", [0, 0, 0, 0, 0])]
  accelArrays := [("X", [0, 0, 0, 0, 0])]

/-- A session state whose only positioner `X` has a very low velocity
limit (`max_velo = 1/10`, `max_accel = 1000`). -/
def cstC6 : XPSState where
  traj_group := some "G"
  positioners := ["X"]
  maxVeloOf := fun _ => 1 / 10
  maxAccelOf := fun _ => 1000
  trajectories := []
  traj_state := .IDLE
  traj_file := none
  nsegments := -1
  ngathered := 0
  firmware_xpsd := false

/-- An uploaded line trajectory named `t`. -/
def trajLineT : Traj where
  axes := ["X"]
  ttype := "line"
  pixeltime := 1 / 100
  npulses := 4
  nsegments := 3
  uploaded := true
  startList := []
  stopList := []
  startBackoff := []
  posArrays := []
  veloArrays := []
  accelArrays := []

/-- A session holding the uploaded trajectory `t`, in state IDLE. -/
def cstArm : XPSState where
  traj_group := some "G"
  positioners := ["X"]
  maxVeloOf := fun _ => 10
  maxAccelOf := fun _ => 100
  trajectories := [("t", trajLineT)]
  traj_state := .IDLE
  traj_file := none
  nsegments := -1
  ngathered := 0
  firmware_xpsd := false

/-- A device that answers every call with success (and reports no
gathering samples). -/
def dev0 : Device where
  moveStageErr := 0
  gatheringResetErr := 0
  gatheringConfigErr := 0
  pulseOutputErr := 0
  verificationErr := 0
  eventTriggerErr := 0
  eventActionErr := 0
  pvtExecutionErr := 0
  gatherNumResponses := []
  readLines := fun _ _ => (0, "")

/-- A device whose `GatheringReset` call fails with error code 5. -/
def devResetFail : Device where
  moveStageErr := 0
  gatheringResetErr := 5
  gatheringConfigErr := 0
  pulseOutputErr := 0
  verificationErr := 0
  eventTriggerErr := 0
  eventActionErr := 0
  pvtExecutionErr := 0
  gatherNumResponses := []
  readLines := fun _ _ => (0, "")

/-- A device whose best-effort arm calls (pulse-output set and
verification) fail. -/
def devPulseFail : Device where
  moveStageErr := 0
  gatheringResetErr := 0
  gatheringConfigErr := 0
  pulseOutputErr := 7
  verificationErr := 8
  eventTriggerErr := 0
  eventActionErr := 0
  pvtExecutionErr := 0
  gatherNumResponses := []
  readLines := fun _ _ => (0, "")

/-- A device reporting zero samples on every poll. -/
def devC8 : Device where
  moveStageErr := 0
  gatheringResetErr := 0
  gatheringConfigErr := 0
  pulseOutputErr := 0
  verificationErr := 0
  eventTriggerErr := 0
  eventActionErr := 0
  pvtExecutionErr := 0
  gatherNumResponses := [(0, 0), (0, 0), (0, 0)]
  readLines := fun _ _ => (0, "ignored")

/-- A device reporting 50 samples whose bulk read fails (status -1) and
whose every chunked read also fails (status 1, payload `junk`). -/
def devC9 : Device where
  moveStageErr := 0
  gatheringResetErr := 0
  gatheringConfigErr := 0
  pulseOutputErr := 0
  verificationErr := 0
  eventTriggerErr := 0
  eventActionErr := 0
  pvtExecutionErr := 0
  gatherNumResponses := [(0, 50)]
  readLines := fun _ n => if n = 50 then (-1, "") else (1, "junk")

/-! ### Claims about the line-trajectory planner -/

/-- Claim C3: for every axis and every LineTrajectory computed for it,
the constant-traverse velocity is at most `0.75 * max_velo` and the ramp
acceleration (the caller-supplied `accel`, clamped) is at most
`0.5 * max_accel` of the stage. -/
theorem C3_line_velocity_accel_capped (axis : String)
    (maxVeloStage maxAccelStage : ℚ) (pixeltimeArg scantimeArg : Option ℚ)
    (start stop step : ℚ) (accelArg : Option ℚ) (r : LineResult)
    (h : define_line_trajectories axis maxVeloStage maxAccelStage
      pixeltimeArg scantimeArg start stop step accelArg = .ok r) :
    r.velocity ≤ 3 / 4 * maxVeloStage ∧ r.accel ≤ 1 / 2 * maxAccelStage := by
  simp only [define_line_trajectories] at h
  repeat' split at h
  all_goals cases h
  all_goals exact ⟨min_le_right _ _, min_le_right _ _⟩

/-- Claim C4: the backward line trajectory's start equals the forward
one's stop and vice versa (field copies), and for the scanned axis the
backward velocity, ramp distance and distance are the exact negations of
the forward ones. -/
theorem C4_line_backward_mirror (axis : String)
    (maxVeloStage maxAccelStage : ℚ) (pixeltimeArg scantimeArg : Option ℚ)
    (start stop step : ℚ) (accelArg : Option ℚ) (r : LineResult)
    (h : define_line_trajectories axis maxVeloStage maxAccelStage
      pixeltimeArg scantimeArg start stop step accelArg = .ok r) :
    r.backwardStart = r.forewardStop ∧
    r.backwardStop = r.forewardStart ∧
    r.backStart axis = r.foreStop axis ∧
    r.backStop axis = r.foreStart axis ∧
    r.backVelo axis = -(r.foreVelo axis) ∧
    r.backRamp axis = -(r.foreRamp axis) ∧
    r.backDist axis = -(r.foreDist axis) := by
  simp only [define_line_trajectories] at h
  repeat' split at h
  all_goals cases h
  all_goals refine ⟨rfl, rfl, ?_, ?_, ?_, ?_, ?_⟩ <;>
    simp [backFn, foreVal, mul_neg_one]


/-- The planner on that concrete input evaluates to `lineResultEx`. -/
theorem define_line_ex_eval :
    define_line_trajectories "X" 10 100 (some (1 / 100)) none 0 1 (1 / 2)
      none = .ok lineResultEx := by
  norm_num [define_line_trajectories, pixscanOf, pyInt, lineResultEx,
    foreVal, backFn, abs_of_nonneg]

theorem C3_witness :
    lineResultEx.velocity ≤ 3 / 4 * 10 ∧
    lineResultEx.accel ≤ 1 / 2 * 100 :=
  C3_line_velocity_accel_capped "X" 10 100 (some (1 / 100)) none 0 1
    (1 / 2) none lineResultEx define_line_ex_eval

theorem C4_witness :
    lineResultEx.backwardStart = lineResultEx.forewardStop ∧
    lineResultEx.backwardStop = lineResultEx.forewardStart ∧
    lineResultEx.backStart "X" = lineResultEx.foreStop "X" ∧
    lineResultEx.backStop "X" = lineResultEx.foreStart "X" ∧
    lineResultEx.backVelo "X" = -(lineResultEx.foreVelo "X") ∧
    lineResultEx.backRamp "X" = -(lineResultEx.foreRamp "X") ∧
    lineResultEx.backDist "X" = -(lineResultEx.foreDist "X") :=
  C4_line_backward_mirror "X" 10 100 (some (1 / 100)) none 0 1 (1 / 2)
    none lineResultEx define_line_ex_eval

/-! ### Supporting lemmas for the array planner -/

theorem length_npDiff (l : List ℚ) : (npDiff l).length = l.length - 1 := by
  induction l with
  | nil => simp [npDiff]
  | cons a t ih =>
    cases t with
    | nil => simp [npDiff]
    | cons b t' =>
      simp only [npDiff, List.length_cons] at ih ⊢
      omega

theorem length_adjMidpoints (l : List ℚ) :
    (adjMidpoints l).length = l.length - 1 := by
  induction l with
  | nil => simp [adjMidpoints]
  | cons a t ih =>
    cases t with
    | nil => simp [adjMidpoints]
    | cons b t' =>
      simp only [adjMidpoints, List.length_cons] at ih ⊢
      omega

theorem length_midArray (l : List ℚ) : (midArray l).length = l.length + 4 := by
  simp [midArray]

theorem length_npGradient (a : List ℚ) : (npGradient a).length = a.length := by
  simp [npGradient]

theorem length_trigPositions (l : List ℚ) :
    (trigPositions l).length = l.length + 3 := by
  simp [trigPositions, length_adjMidpoints, length_midArray]

theorem length_dposSeries (l : List ℚ) (dtime maxv maxa : ℚ) :
    (dposSeries l dtime maxv maxa).length = l.length + 2 := by
  simp [dposSeries, length_npDiff, length_trigPositions]

/-- Setting the final entry makes it the value reported by `getLast?`. -/
theorem getLast?_set_last (l : List ℚ) (x : ℚ) (h : l ≠ []) :
    (l.set (l.length - 1) x).getLast? = some x := by
  rw [List.getLast?_eq_getElem?, List.length_set]
  exact List.getElem?_set_self (by
    have : 0 < l.length := List.length_pos.mpr h
    omega)

theorem length_veloSeries (l : List ℚ) (dtime maxv maxa : ℚ) :
    (veloSeries l dtime maxv maxa).length = l.length + 2 := by
  simp [veloSeries, length_npGradient, length_dposSeries]

/-- The final segment's velocity is forced to zero
(`velo[axes][-1] = 0.0`). -/
theorem veloSeries_getLast (l : List ℚ) (dtime maxv maxa : ℚ) :
    (veloSeries l dtime maxv maxa).getLast? = some 0 := by
  simp only [veloSeries]
  apply getLast?_set_last
  apply List.ne_nil_of_length_pos
  simp [length_npGradient, length_dposSeries]

/-- Validation of a one-axis positions dict. -/
theorem checkItems_singleton (g : String) (aa : List String) (k : String)
    (v : List ℚ) :
    checkItems g aa [(k, v)] none true
      = (some v.length,
         if aa.contains (stripGroupKey g k) then true else false) := by
  simp [checkItems]

/-- A successful `axisCalc` on a supplied axis returns exactly the
velocity series of the source computation. -/
theorem axisCalc_ok_velo (maxv maxa dtime : ℚ) (npulses : ℕ)
    (upos : List ℚ) (s : Option ℚ) (p v a : List ℚ)
    (h : axisCalc maxv maxa dtime npulses (some upos) = .ok (s, p, v, a)) :
    v = veloSeries upos dtime maxv maxa := by
  simp only [axisCalc] at h
  repeat' split at h
  all_goals cases h
  rfl

/-- Any error `axisCalc` raises on a supplied axis with nonzero `dtime`
and a nonzero start-backoff denominator is a `ValueError`. -/
theorem axisCalc_error_shape (maxv maxa dtime : ℚ) (npulses : ℕ)
    (u : Option (List ℚ)) (e : PyErr)
    (h : axisCalc maxv maxa dtime npulses u = .error e)
    (hdt : dtime ≠ 0)
    (hden : ∀ upos, u = some upos →
      max (a0Of upos dtime) ((1 / 2) * maxa) ≠ 0) :
    ∃ m, e = .valueError m := by
  cases u with
  | none => cases h
  | some upos =>
    simp only [axisCalc] at h
    rw [if_neg hdt, if_neg (hden upos rfl)] at h
    split at h
    · cases h
      exact ⟨_, rfl⟩
    · split at h
      · cases h
        exact ⟨_, rfl⟩
      · cases h

/-- A kinematic-limit violation on a supplied axis makes `axisCalc`
raise. -/
theorem axisCalc_violation_error (maxv maxa dtime : ℚ) (npulses : ℕ)
    (upos : List ℚ) (hdt : dtime ≠ 0)
    (hden : max (a0Of upos dtime) ((1 / 2) * maxa) ≠ 0)
    (hviol : maxAbs (veloSeries upos dtime maxv maxa) > maxv ∨
      maxAbs (accelSeries upos dtime maxv maxa) > maxa) :
    ∃ e, axisCalc maxv maxa dtime npulses (some upos) = .error e := by
  simp only [axisCalc]
  rw [if_neg hdt, if_neg hden]
  by_cases hv : maxAbs (veloSeries upos dtime maxv maxa) > maxv
  · exact ⟨_, by rw [if_pos hv]⟩
  · have ha : maxAbs (accelSeries upos dtime maxv maxa) > maxa :=
      hviol.resolve_left hv
    exact ⟨_, by rw [if_neg hv, if_pos ha]⟩

/-- If some axis of the loop raises, the whole loop raises. -/
theorem buildAxes_error_of_mem (st : XPSState)
    (positions : List (String × List ℚ)) (maxAccels : List (String × ℚ))
    (dtime : ℚ) (npulses : ℕ) :
    ∀ (l : List String) (ax : String), ax ∈ l →
    (∃ e, axisStep st positions maxAccels dtime npulses ax = .error e) →
    ∃ e', buildAxes st positions maxAccels dtime npulses l = .error e' := by
  intro l
  induction l with
  | nil => intro ax hmem; cases hmem
  | cons a rest ih =>
    intro ax hmem he
    obtain ⟨e, he⟩ := he
    cases hstep : axisStep st positions maxAccels dtime npulses a with
    | error e2 => exact ⟨e2, by simp [buildAxes, hstep]⟩
    | ok q =>
      rcases List.mem_cons.mp hmem with rfl | hmem'
      · rw [hstep] at he
        cases he
      · obtain ⟨e', he'⟩ := ih ax hmem' ⟨e, he⟩
        obtain ⟨s, p, v, a'⟩ := q
        exact ⟨e', by simp [buildAxes, hstep, he']⟩

/-- Conversely, an error of the loop is an error of one of its axes. -/
theorem buildAxes_error_mem (st : XPSState)
    (positions : List (String × List ℚ)) (maxAccels : List (String × ℚ))
    (dtime : ℚ) (npulses : ℕ) :
    ∀ (l : List String) (e : PyErr),
    buildAxes st positions maxAccels dtime npulses l = .error e →
    ∃ ax ∈ l, axisStep st positions maxAccels dtime npulses ax = .error e := by
  intro l
  induction l with
  | nil => intro e h; cases h
  | cons a rest ih =>
    intro e h
    cases hstep : axisStep st positions maxAccels dtime npulses a with
    | error e2 =>
      simp only [buildAxes, hstep] at h
      cases h
      exact ⟨a, List.mem_cons_self a rest, hstep⟩
    | ok q =>
      obtain ⟨s, p, v, a'⟩ := q
      simp only [buildAxes, hstep] at h
      cases hrest : buildAxes st positions maxAccels dtime npulses rest with
      | error e2 =>
        rw [hrest] at h
        cases h
        obtain ⟨ax, hmem, hx⟩ := ih e hrest
        exact ⟨ax, List.mem_cons_of_mem a hmem, hx⟩
      | ok q2 =>
        obtain ⟨ss, ps, vs, acs⟩ := q2
        rw [hrest] at h
        cases h

/-- A successful loop stores, for every supplied axis, the velocity
series computed by the source. -/
theorem buildAxes_velo_lookup (st : XPSState)
    (positions : List (String × List ℚ)) (maxAccels : List (String × ℚ))
    (dtime : ℚ) (npulses : ℕ) :
    ∀ (l : List String) ss ps vs acs,
    buildAxes st positions maxAccels dtime npulses l = .ok (ss, ps, vs, acs) →
    ∀ (ax : String) (upos : List ℚ), ax ∈ l →
    positions.lookup ax = some upos →
    vs.lookup ax = some (veloSeries upos dtime (st.maxVeloOf ax)
      (effMaxAccel st maxAccels ax)) := by
  intro l
  induction l with
  | nil =>
    intro ss ps vs acs h ax upos hmem
    cases hmem
  | cons a rest ih =>
    intro ss ps vs acs h ax upos hmem hlook
    cases hstep : axisStep st positions maxAccels dtime npulses a with
    | error e =>
      simp only [buildAxes, hstep] at h
      cases h
    | ok q =>
      obtain ⟨s, p, v, a'⟩ := q
      simp only [buildAxes, hstep] at h
      cases hrest : buildAxes st positions maxAccels dtime npulses rest with
      | error e =>
        rw [hrest] at h
        cases h
      | ok q2 =>
        obtain ⟨ss', ps', vs', acs'⟩ := q2
        rw [hrest] at h
        cases h
        by_cases hax : ax = a
        · subst hax
          have hv : v = veloSeries upos dtime (st.maxVeloOf ax)
              (effMaxAccel st maxAccels ax) := by
            apply axisCalc_ok_velo (st.maxVeloOf ax)
              (effMaxAccel st maxAccels ax) dtime npulses upos s p v a'
            rw [← hstep]
            simp [axisStep, hlook]
          simp [List.lookup, hv]
        · have hne : (ax == a) = false := beq_eq_false_iff_ne.mpr hax
          have := ih ss' ps' vs' acs' hrest ax upos
            (List.mem_of_ne_of_mem hax hmem) hlook
          simpa [List.lookup, hne] using this

/-! ### Claims about the array-trajectory planner -/


/-- Claim C1 counterexample: on malformed input (axis `Y` is not in the
trajectory group) `define_array_trajectory` raises nothing: it returns
normally (Python `None`, embedded as `.ok none`), state unchanged.  The
claim that a ValidationError is raised and the call never returns
normally is therefore false. -/
theorem C1_counterexample :
    define_array_trajectory cstArr [("Y", [0, 1])] 1 [] "array" false false
      = (cstArr, .ok none) := rfl

/-- Claim C1 (amended): when input validation fails (unknown positioner
or mismatched sequence lengths), the call prints a message and returns
`None` before any numeric trajectory work, raising nothing and leaving
the session state unchanged. -/
theorem C1_amended_returns_none_on_bad_input (st : XPSState) (g : String)
    (positions : List (String × List ℚ)) (dtime : ℚ)
    (maxAccels : List (String × ℚ)) (name : String) (upload uploadOk : Bool)
    (hg : st.traj_group = some g)
    (hbad : (checkItems g st.positioners positions none true).2 = false) :
    define_array_trajectory st positions dtime maxAccels name upload
      uploadOk = (st, .ok none) := by
  simp only [define_array_trajectory, hg]
  rw [if_pos hbad]

/-- Concrete run of the amended C1 statement: sequences of unequal
length (`X` gets 3 points, `G.X` gets 2). -/
theorem C1_witness :
    define_array_trajectory cstArr [("X", [0, 1, 2]), ("G.X", [0, 1])] 2 []
      "t" true true = (cstArr, .ok none) :=
  C1_amended_returns_none_on_bad_input cstArr "G"
    [("X", [0, 1, 2]), ("G.X", [0, 1])] 2 [] "t" true true rfl rfl

/-- Claim C5: a successful ArrayTrajectory built from one axis's
`N`-point position sequence has `nsegments = N + 2`, and the velocity
series stored for that axis is the source's computed series, whose final
entry is zero (full stop at trajectory end). -/
theorem C5_array_nsegments_final_velocity (st st' : XPSState) (ax : String)
    (upos : List ℚ) (N : ℕ) (dtime : ℚ) (maxAccels : List (String × ℚ))
    (name : String) (upload uploadOk : Bool) (traj : Traj)
    (hlen : upos.length = N) (hN : 2 ≤ N) (hax : ax ∈ st.positioners)
    (h : define_array_trajectory st [(ax, upos)] dtime maxAccels name
      upload uploadOk = (st', .ok (some traj))) :
    traj.nsegments = (N : ℤ) + 2 ∧
    traj.veloArrays.lookup ax = some (veloSeries upos |dtime|
      (st.maxVeloOf ax) (effMaxAccel st maxAccels ax)) ∧
    (veloSeries upos |dtime| (st.maxVeloOf ax)
      (effMaxAccel st maxAccels ax)).getLast? = some 0 := by
  cases hg : st.traj_group with
  | none => simp [define_array_trajectory, hg] at h
  | some g =>
    simp only [define_array_trajectory, hg, checkItems_singleton] at h
    simp at h
    by_cases hmem : stripGroupKey g ax ∈ st.positioners
    case neg => simp [hmem] at h
    case pos =>
      rw [if_pos hmem] at h
      cases hb : buildAxes st [(ax, upos)] maxAccels |dtime|
          (upos.length + 1) st.positioners with
      | error e => rw [hb] at h; simp at h
      | ok q =>
        obtain ⟨starts, poss, velos, accels⟩ := q
        rw [hb] at h
        simp only [Prod.mk.injEq, Except.ok.injEq, Option.some.injEq] at h
        obtain ⟨hst, htraj⟩ := h
        subst htraj
        refine ⟨?_, ?_, veloSeries_getLast upos |dtime| _ _⟩
        · simp only [hlen]
          ring
        · exact buildAxes_velo_lookup st [(ax, upos)] maxAccels |dtime|
            (upos.length + 1) st.positioners starts poss velos accels hb
            ax upos hax (by simp [List.lookup])


/-- Concrete evaluation of the array planner on a 3-point scan. -/
theorem define_array_ex_eval :
    define_array_trajectory cstArr [("X", [0, 2, 4])] 1 [] "arr" false false
      = ({cstArr with trajectories := [("arr", trajC5)]},
         .ok (some trajC5)) := by
  have hg : cstArr.traj_group = some "G" := rfl
  have hpos : cstArr.positioners = ["X"] := rfl
  have hchk : checkItems "G" ["X"] [("X", ([0, 2, 4] : List ℚ))] none true
      = (some 3, true) := rfl
  have hstep : axisStep cstArr [("X", [0, 2, 4])] [] 1 4 "X"
      = .ok (some (-3), [2, 2, 2, 2, 2], [0, 0, 0, 0, 0],
             [0, 0, 0, 0, 0]) := by
    norm_num [axisStep, axisCalc, effMaxAccel, cstArr, List.lookup,
      veloSeries, accelSeries, dposSeries, npDiff, npGradient,
      trigPositions, midArray, adjMidpoints, startBackoffOf, a0Of, maxAbs,
      List.range_succ]
  have hbuild : buildAxes cstArr [("X", [0, 2, 4])] [] 1 4 ["X"]
      = .ok ([("X", some (-3))], [("X", [2, 2, 2, 2, 2])],
             [("X", [0, 0, 0, 0, 0])], [("X", [0, 0, 0, 0, 0])]) := by
    simp [buildAxes, hstep]
  have habs : |(1 : ℚ)| = 1 := abs_one
  simp only [define_array_trajectory, hg, hpos, hchk, habs]
  norm_num
  simp only [hbuild]
  simp [setTraj, trajC5, cstArr, List.lookup]

/-- Witness for C5: the concrete 3-point scan has 5 = 3+2 segments and a
final velocity of zero. -/
theorem C5_witness :
    trajC5.nsegments = ((3 : ℕ) : ℤ) + 2 ∧
    trajC5.veloArrays.lookup "X" = some (veloSeries [0, 2, 4] |(1 : ℚ)|
      (cstArr.maxVeloOf "X") (effMaxAccel cstArr [] "X")) ∧
    (veloSeries [0, 2, 4] |(1 : ℚ)| (cstArr.maxVeloOf "X")
      (effMaxAccel cstArr [] "X")).getLast? = some 0 :=
  C5_array_nsegments_final_velocity cstArr
    {cstArr with trajectories := [("arr", trajC5)]} "X" [0, 2, 4] 3 1 []
    "arr" false false trajC5 rfl (by norm_num) (by simp [cstArr])
    define_array_ex_eval

/-- Claim C6: when a supplied axis's computed velocity exceeds the
stage's `max_velo`, or its computed acceleration exceeds the effective
acceleration cap, the call raises `ValueError` and the session state —
in particular its trajectory table — is unchanged: no trajectory is
registered for any axis. -/
theorem C6_array_violation_rejects_all (st : XPSState) (g : String)
    (positions : List (String × List ℚ)) (dtime : ℚ)
    (maxAccels : List (String × ℚ)) (name : String) (upload uploadOk : Bool)
    (npts : ℕ) (ax : String) (upos : List ℚ)
    (hg : st.traj_group = some g)
    (hchk : checkItems g st.positioners positions none true
      = (some npts, true))
    (hax : ax ∈ st.positioners)
    (hsup : positions.lookup ax = some upos)
    (hdt : dtime ≠ 0)
    (hden : ∀ b ∈ st.positioners, ∀ u, positions.lookup b = some u →
      max (a0Of u |dtime|) ((1 / 2) * effMaxAccel st maxAccels b) ≠ 0)
    (hviol : maxAbs (veloSeries upos |dtime| (st.maxVeloOf ax)
        (effMaxAccel st maxAccels ax)) > st.maxVeloOf ax ∨
      maxAbs (accelSeries upos |dtime| (st.maxVeloOf ax)
        (effMaxAccel st maxAccels ax)) > effMaxAccel st maxAccels ax) :
    ∃ m, define_array_trajectory st positions dtime maxAccels name upload
      uploadOk = (st, .error (.valueError m)) := by
  have habs : |dtime| ≠ 0 := abs_ne_zero.mpr hdt
  obtain ⟨e, he⟩ := axisCalc_violation_error (st.maxVeloOf ax)
    (effMaxAccel st maxAccels ax) |dtime| (npts + 1) upos habs
    (hden ax hax upos hsup) hviol
  have hstep : axisStep st positions maxAccels |dtime| (npts + 1) ax
      = .error e := by
    rw [axisStep, hsup, he]
  obtain ⟨e', he'⟩ := buildAxes_error_of_mem st positions maxAccels
    |dtime| (npts + 1) st.positioners ax hax ⟨e, hstep⟩
  obtain ⟨ax2, hax2, hstep2⟩ := buildAxes_error_mem st positions maxAccels
    |dtime| (npts + 1) st.positioners e' he'
  obtain ⟨m, rfl⟩ := axisCalc_error_shape (st.maxVeloOf ax2)
    (effMaxAccel st maxAccels ax2) |dtime| (npts + 1)
    (positions.lookup ax2) e' hstep2 habs
    (fun u hu => hden ax2 hax2 u hu)
  refine ⟨m, ?_⟩
  simp only [define_array_trajectory, hg, hchk, he']
  simp


/-- Witness for C6: positions `[0, 4, 0]` need a peak velocity of 4,
far above the `1/10` limit, so the call raises ValueError and registers
nothing. -/
theorem C6_witness :
    ∃ m, define_array_trajectory cstC6 [("X", [0, 4, 0])] 1 [] "t" true
      true = (cstC6, .error (.valueError m)) :=
  C6_array_violation_rejects_all cstC6 "G" [("X", [0, 4, 0])] 1 [] "t"
    true true 3 "X" [0, 4, 0] rfl rfl (by simp [cstC6]) rfl
    (by norm_num)
    (by
      intro b hb u hu
      simp [cstC6] at hb
      subst hb
      simp [List.lookup] at hu
      subst hu
      norm_num [a0Of, trigPositions, midArray, adjMidpoints, effMaxAccel,
        cstC6, List.lookup])
    (by
      left
      norm_num [veloSeries, npGradient, dposSeries, npDiff, trigPositions,
        midArray, adjMidpoints, startBackoffOf, a0Of, maxAbs, effMaxAccel,
        cstC6, List.lookup, List.range_succ])

/-! ### Claims about TrajectorySession arming and running -/






/-- `move_to_trajectory_start` is a no-op (no exception) when the device
accepts every move command. -/
theorem move_to_trajectory_start_ok (st : XPSState) (dev : Device)
    (name : String) (g : String) (traj : Traj)
    (hg : st.traj_group = some g)
    (hname : st.trajectories.lookup name = some traj)
    (hmove : dev.moveStageErr = 0) :
    move_to_trajectory_start st dev name = (st, none) := by
  simp [move_to_trajectory_start, hg, hname, hmove]

/-- Full evaluation of `arm_trajectory` for an uploaded trajectory when
moves succeed: gathering-reset and gathering-configure errors abort with
state ARMING; otherwise the arm ends ARMED whatever the pulse-output and
verification calls return. -/
theorem arm_trajectory_eval (st : XPSState) (dev : Device) (name : String)
    (mv : Bool) (g : String) (traj : Traj)
    (hg : st.traj_group = some g)
    (hname : st.trajectories.lookup name = some traj)
    (hup : traj.uploaded = true)
    (hmove : dev.moveStageErr = 0) :
    arm_trajectory st dev name mv =
      if dev.gatheringResetErr ≠ 0 then
        ({st with traj_state := .ARMING,
                  traj_file := some (name ++ ".trj"),
                  nsegments := traj.nsegments},
         some (.xpsException "GatheringReset"))
      else if dev.gatheringConfigErr ≠ 0 then
        ({st with traj_state := .ARMING,
                  traj_file := some (name ++ ".trj"),
                  nsegments := traj.nsegments},
         some (.xpsException "GatheringConfigSet"))
      else
        ({st with traj_state := .ARMED,
                  traj_file := some (name ++ ".trj"),
                  nsegments := traj.nsegments},
         none) := by
  have hmv : (if mv then
      move_to_trajectory_start
        {st with traj_state := .ARMING,
                 traj_file := some (name ++ ".trj")} dev name
      else ({st with traj_state := .ARMING,
                     traj_file := some (name ++ ".trj")}, none))
      = ({st with traj_state := .ARMING,
                  traj_file := some (name ++ ".trj")}, none) := by
    cases mv
    · rfl
    · exact move_to_trajectory_start_ok _ dev name g traj hg hname hmove
  simp only [arm_trajectory, hname, hup]
  simp only [hmv]
  by_cases hr : dev.gatheringResetErr = 0
  · by_cases hc : dev.gatheringConfigErr = 0
    · simp [check_error, hr, hc]
    · simp [check_error, hr, hc]
  · simp [check_error, hr]

/-- Claim C2 counterexample: a fatal gathering-reset failure during arm
raises, but the session state stays ARMING — it does not return to IDLE
as claimed. -/
theorem C2_counterexample :
    (arm_trajectory cstArm devResetFail "t" true).2
        = some (.xpsException "GatheringReset") ∧
    (arm_trajectory cstArm devResetFail "t" true).1.traj_state
        = .ARMING ∧
    (arm_trajectory cstArm devResetFail "t" true).1.traj_state
        ≠ .IDLE := by
  have h := arm_trajectory_eval cstArm devResetFail "t" true "G" trajLineT
    rfl rfl rfl rfl
  simp only [show devResetFail.gatheringResetErr = 5 from rfl] at h
  norm_num at h
  rw [h]
  exact ⟨rfl, rfl, by simp⟩

/-- Claim C2 (amended): during arm (uploaded trajectory, moves
succeeding), a device error from gathering-reset or gathering-configure
is fatal — an exception is raised and the session is left in state
ARMING, not IDLE — whereas errors from the pulse-output-window and the
trajectory-verification calls are non-fatal: arming still ends ARMED
with no exception. -/
theorem C2_amended_arm_error_policy (st : XPSState) (dev : Device)
    (name g : String) (traj : Traj) (mv : Bool)
    (hg : st.traj_group = some g)
    (hname : st.trajectories.lookup name = some traj)
    (hup : traj.uploaded = true)
    (hmove : dev.moveStageErr = 0) :
    ((dev.gatheringResetErr ≠ 0 ∨ dev.gatheringConfigErr ≠ 0) →
      (arm_trajectory st dev name mv).1.traj_state = .ARMING ∧
      (arm_trajectory st dev name mv).2.isSome = true) ∧
    (dev.gatheringResetErr = 0 → dev.gatheringConfigErr = 0 →
      (arm_trajectory st dev name mv).1.traj_state = .ARMED ∧
      (arm_trajectory st dev name mv).2 = none) := by
  have h := arm_trajectory_eval st dev name mv g traj hg hname hup hmove
  constructor
  · intro hor
    by_cases hr : dev.gatheringResetErr = 0
    · have hc : dev.gatheringConfigErr ≠ 0 := by
        rcases hor with h1 | h2
        · exact absurd hr h1
        · exact h2
      rw [h, if_neg (by simp [hr]), if_pos hc]
      exact ⟨rfl, rfl⟩
    · rw [h, if_pos hr]
      exact ⟨rfl, rfl⟩
  · intro hr hc
    rw [h, if_neg (by simp [hr]), if_neg (by simp [hc])]
    exact ⟨rfl, rfl⟩

/-- Witness for the amended C2: with failing pulse-output and
verification calls but healthy gathering calls, arming still ends
ARMED. -/
theorem C2_witness :
    ((devPulseFail.gatheringResetErr ≠ 0 ∨
        devPulseFail.gatheringConfigErr ≠ 0) →
      (arm_trajectory cstArm devPulseFail "t" true).1.traj_state
          = .ARMING ∧
      (arm_trajectory cstArm devPulseFail "t" true).2.isSome = true) ∧
    (devPulseFail.gatheringResetErr = 0 →
      devPulseFail.gatheringConfigErr = 0 →
      (arm_trajectory cstArm devPulseFail "t" true).1.traj_state
          = .ARMED ∧
      (arm_trajectory cstArm devPulseFail "t" true).2 = none) :=
  C2_amended_arm_error_policy cstArm devPulseFail "t" "G" trajLineT true
    rfl rfl rfl rfl

/-- Claim C7 counterexample: run while IDLE does not raise when `name`
names a defined, uploaded trajectory — `run_trajectory` auto-arms it and
returns normally. -/
theorem C7_counterexample :
    (run_trajectory cstArm dev0 (some "t") false).2 = .ok 0 := rfl

/-- Claim C7 (amended): run raises `XPSException` ("Must arm trajectory
before running!") when the state is not ARMED and the given name does
not refer to a defined trajectory (so no auto-arm happens); with a name
that is defined, run first auto-arms. -/
theorem C7_amended_run_not_armed_raises (st : XPSState) (dev : Device)
    (name : Option String) (save : Bool)
    (hname : (name.bind fun n => st.trajectories.lookup n) = none)
    (hstate : st.traj_state ≠ .ARMED) :
    run_trajectory st dev name save
      = (st, .error (.xpsException "Must arm trajectory before running!"))
    := by
  cases name with
  | none => simp [run_trajectory, hstate]
  | some n =>
    have hl : st.trajectories.lookup n = none := by simpa using hname
    simp [run_trajectory, hl, hstate]

/-- Witness for the amended C7: an unknown trajectory name from state
IDLE raises. -/
theorem C7_witness :
    run_trajectory cstArm dev0 (some "missing") true
      = (cstArm, .error (.xpsException "Must arm trajectory before running!"))
    :=
  C7_amended_run_not_armed_raises cstArm dev0 (some "missing") true
    (by simp [cstArm, List.lookup]) (by simp [cstArm])

/-- Claim C10: whenever `run_trajectory` returns normally, it returns 0:
the local pulse counter is initialized to 0 and never updated, whatever
the save flag and the gathered data. -/
theorem C10_run_returns_zero (st : XPSState) (dev : Device)
    (name : Option String) (save : Bool) (st' : XPSState) (r : ℤ)
    (h : run_trajectory st dev name save = (st', .ok r)) : r = 0 := by
  simp only [run_trajectory] at h
  repeat' split at h
  all_goals cases h
  all_goals rfl

/-- Witness for C10: a full armed run (auto-arm, execute, save path with
an empty gathering) returns 0. -/
theorem C10_witness : (0 : ℤ) = 0 :=
  C10_run_returns_zero cstArm dev0 (some "t") true
    (run_trajectory cstArm dev0 (some "t") true).1 0 rfl

/-! ### Claims about GatheringReader -/



/-- If every response within the polling window reports fewer than one
sample, the poll loop times out. -/
theorem pollGatherNum_eq_none (l : List (ℤ × ℤ))
    (hall : ∀ p ∈ l, p.2 < 1) : pollGatherNum l = none := by
  induction l with
  | nil => rfl
  | cons a t ih =>
    obtain ⟨r, np⟩ := a
    have hnp : np < 1 := hall (r, np) (List.mem_cons_self _ _)
    simp only [pollGatherNum, if_neg (by omega : ¬np ≥ 1)]
    exact ih fun p hp => hall p (List.mem_cons_of_mem _ hp)

/-- Claim C8 counterexample: on a full polling timeout the call returns
`(0, " \n")` — a space-and-newline buffer — not `(0, "")`. -/
theorem C8_counterexample :
    (read_gathering cstArm devC8 true).2 = (0, " \n") ∧
    (" \n" : String) ≠ "" := ⟨rfl, by decide⟩

/-- Claim C8 (amended): when every sample-count poll within the timeout
window reports a count below one, `read_gathering` returns `(0, " \n")`
without raising. -/
theorem C8_amended_timeout_returns_blank (st : XPSState) (dev : Device)
    (b : Bool) (hall : ∀ p ∈ dev.gatherNumResponses, p.2 < 1) :
    (read_gathering st dev b).2 = (0, " \n") := by
  simp [read_gathering, pollGatherNum_eq_none dev.gatherNumResponses hall]

/-- Witness for the amended C8 at a device with an exhausted (empty)
polling window. -/
theorem C8_witness : (read_gathering cstArm dev0 false).2 = (0, " \n") :=
  C8_amended_timeout_returns_blank cstArm dev0 false (by simp [dev0])

/-- The chunk-escalation loop under always-failing first-chunk reads:
attempts at 3, 5, 7 and 9 chunks, then stops at 11 (> 10) with the
recomputed chunk size — it does not raise. -/
theorem chunkEscalate_all_fail (read : ℤ → ℤ → ℤ × String) (c : ℤ)
    (s0 : String) (hfail : ∀ k, (read 0 k).1 ≠ 0) :
    chunkEscalate read c 5 3 (pyIntDiv (c - 2) 3) s0
      = (11, pyIntDiv (c - 2) 11, (read 0 (pyIntDiv (c - 2) 9)).2) := by
  simp [chunkEscalate, hfail]

/-- Claim C9 (amended): the chunked-read fallback starts at 3 chunks
with `chunk_size = int((count-2)/chunks)`, adds 2 on each failed
first-chunk attempt, and once the chunk count exceeds 10 it stops
escalating (a warning is printed) — but no error is raised: the
function still performs the chunked reads and returns the sample count
with a buffer. -/
theorem C9_amended_escalation_exhausted_no_raise (st : XPSState)
    (dev : Device) (b : Bool) (c : ℤ)
    (hpoll : pollGatherNum dev.gatherNumResponses = some c)
    (hbulk : (dev.readLines 0 c).1 < 0)
    (hfail : ∀ k, (dev.readLines 0 k).1 ≠ 0) :
    (chunkEscalate dev.readLines c 5 3 (pyIntDiv (c - 2) 3) "").1 = 11 ∧
    (chunkEscalate dev.readLines c 5 3 (pyIntDiv (c - 2) 3) "").2.1
        = pyIntDiv (c - 2) 11 ∧
    (read_gathering st dev b).2
        = (c, cleanChars (assembleChunks dev.readLines c 11
            (pyIntDiv (c - 2) 11) (dev.readLines 0 (pyIntDiv (c - 2) 9)).2))
    := by
  have hesc := chunkEscalate_all_fail dev.readLines c "" hfail
  refine ⟨by rw [hesc], by rw [hesc], ?_⟩
  simp only [read_gathering, hpoll, if_pos hbulk, hesc]

/-- Witness for the amended C9 on the concrete failing device. -/
theorem C9_witness :
    (chunkEscalate devC9.readLines 50 5 3 (pyIntDiv (50 - 2) 3) "").1
        = 11 ∧
    (chunkEscalate devC9.readLines 50 5 3 (pyIntDiv (50 - 2) 3) "").2.1
        = pyIntDiv (50 - 2) 11 ∧
    (read_gathering cstArm devC9 true).2
        = (50, cleanChars (assembleChunks devC9.readLines 50 11
            (pyIntDiv (50 - 2) 11)
            (devC9.readLines 0 (pyIntDiv (50 - 2) 9)).2)) :=
  C9_amended_escalation_exhausted_no_raise cstArm devC9 true 50 rfl
    (by decide) (by
      intro k
      simp only [devC9]
      split <;> decide)

/-- Claim C9 counterexample: with the bulk read failing and every
chunk-size attempt failing (3, 5, 7, 9, then 11 > 10), the call does not
raise any error: it returns the sample count 50 together with a
(garbage) buffer assembled from the failed reads. -/
theorem C9_counterexample :
    (read_gathering cstArm devC9 true).2
      = (50, "junkjunkjunkjunkjunkjunkjunkjunkjunkjunkjunkjunk") := rfl
